import Mathlib

/-!
Shallow embedding of the steel-coil chaincode (src/coil-orig.go) and
proofs about its access-control and lifecycle behavior.

The ledger is modeled as an association list from string keys to stored
values.  GetState and PutState are total (store transport failures are
outside the model).  Serialization is modeled structurally: a stored
coil record decodes as that coil, a stored index record decodes as that
index, and a raw record stands for stored bytes that are not valid
JSON, so both decoders fail on it.  Go json.Unmarshal is lenient: any
valid JSON object decodes into either struct with missing fields taking
zero values, which the decoders below reproduce.  Absent keys yield nil
bytes in Go, and unmarshal of nil bytes fails, so decoding an absent
key also fails.
-/

namespace CoilChaincode

/-- Participant role constants (the source comments note these values are a
workaround pending real user roles). -/
def AUTHORITY : String := "buyer"

def MANUFACTURER : String := "manufacturer"

def PRIVATE_ENTITY : String := "carrier"

def LEASE_COMPANY : String := "bank"

def SCRAP_MERCHANT : String := "scrap_merchant"

/-- Lifecycle status constants. -/
def STATE_TEMPLATE : Nat := 0

def STATE_MANUFACTURE : Nat := 1

def STATE_PRIVATE_OWNERSHIP : Nat := 2

def STATE_LEASED_OUT : Nat := 3

def STATE_BEING_SCRAPPED : Nat := 4

/-- The Coil record (struct Coil in the source). -/
structure Coil where
  Prod : String
  Grade : String
  Qual : String
  CoilID : Int
  Owner : String
  Scrapped : Bool
  Status : Nat
  Wgt : String
  V5cID : String
  LeaseContractID : String
  deriving DecidableEq

/-- A value stored in the ledger: a coil record, the V5C_Holder index
record, or raw bytes that are not valid JSON. -/
inductive StoredVal where
  | coilRec (c : Coil)
  | indexRec (ids : List String)
  | rawRec (bytes : String)
  deriving DecidableEq

/-- Error taxonomy of the specification; each constructor corresponds to a
family of errors.New messages in the source. -/
inductive Err where
  | invalidInput (msg : String)
  | duplicateAsset
  | notFound (msg : String)
  | permissionDenied (msg : String)
  | notFullyManufactured
  | corruptRecord (msg : String)
  deriving DecidableEq

/-- Ledger state: newest binding first; getState finds the newest. -/
abbrev StubState := List (String × StoredVal)

def getState : StubState → String → Option StoredVal
  | [], _ => none
  | (k, x) :: rest, key => if k = key then some x else getState rest key

def putState (s : StubState) (key : String) (x : StoredVal) : StubState :=
  (key, x) :: s

/-- Zero-valued Coil, the result of Go json.Unmarshal of a JSON object that
sets none of the coil fields. -/
def emptyCoil : Coil :=
  { Prod := "", Grade := "", Qual := "", CoilID := 0, Owner := "", Scrapped := false,
    Status := 0, Wgt := "", V5cID := "", LeaseContractID := "" }

/-- Go json.Unmarshal of stored bytes into the Coil struct.  An index
record is a valid JSON object, so it decodes leniently into the
zero-valued coil; raw bytes and absent keys fail. -/
def decodeCoil : Option StoredVal → Option Coil
  | some (StoredVal.coilRec c) => some c
  | some (StoredVal.indexRec _) => some emptyCoil
  | some (StoredVal.rawRec _) => none
  | none => none

/-- Go json.Unmarshal of stored bytes into the V5C_Holder struct.  A coil
record is a valid JSON object without a v5cs field, so it decodes into the
empty index; raw bytes and absent keys fail. -/
def decodeIndex : Option StoredVal → Option (List String)
  | some (StoredVal.indexRec ids) => some ids
  | some (StoredVal.coilRec _) => some []
  | some (StoredVal.rawRec _) => none
  | none => none

/-- retrieve_v5c (source lines 189 to 202): GetState then unmarshal; both
the absent-key case and the corrupt-bytes case surface as the corrupt
record error. -/
def retrieve_v5c (s : StubState) (v5cID : String) : Except Err Coil :=
  match decodeCoil (getState s v5cID) with
  | some c => Except.ok c
  | none => Except.error (Err.corruptRecord "RETRIEVE_V5C corrupt coil record")

/-- save_changes (source lines 208 to 219): marshal then PutState at the
V5cID field of the record; marshal and PutState cannot fail in the model. -/
def save_changes (s : StubState) (v : Coil) : StubState :=
  putState s v.V5cID (StoredVal.coilRec v)

/-- Character class of the bracket expression A to z in the source regular
expression: ASCII 65 to 122, which covers the uppercase letters, the six
punctuation characters between Z and a, and the lowercase letters. -/
def inAtoZRange (c : Char) : Bool := 65 ≤ c.toNat && c.toNat ≤ 122

def isDigitChar (c : Char) : Bool := 48 ≤ c.toNat && c.toNat ≤ 57

/-- regexp.Match of the source pattern (source line 334): anchored at the
start only, so it accepts any string whose first two characters are in the
A to z range and whose next seven characters are decimal digits, with
arbitrary trailing characters allowed. -/
def v5cFormatMatch (id : String) : Bool :=
  match id.data with
  | c1 :: c2 :: d1 :: d2 :: d3 :: d4 :: d5 :: d6 :: d7 :: _ =>
      inAtoZRange c1 && inAtoZRange c2 && isDigitChar d1 && isDigitChar d2 && isDigitChar d3
        && isDigitChar d4 && isDigitChar d5 && isDigitChar d6 && isDigitChar d7
  | _ => false

/-- The freshly created coil built by the JSON literal in create_coil
(source lines 321 to 332); the unmarshal of that literal succeeds and
fills every field (quote escaping inside ids is not modeled). -/
def newCoil (v5cID caller : String) : Coil :=
  { Prod := "UNDEFINED", Grade := "UNDEFINED", Qual := "UNDEFINED", CoilID := 0,
    Owner := caller, Scrapped := false, Status := STATE_TEMPLATE, Wgt := "UNDEFINED",
    V5cID := v5cID, LeaseContractID := "UNDEFINED" }

/-- create_coil (source lines 318 to 385).  Order of checks as in the
source: id format, existing record, caller affiliation; then the asset
record is written, and only afterwards the index record is read,
extended and written back.  The emptiness check on the source id string
is vacuous there (it tests a longer JSON fragment) and is omitted. -/
def create_coil (s : StubState) (caller caller_affiliation v5cID : String) :
    StubState × Except Err Unit :=
  let v := newCoil v5cID caller
  if v5cFormatMatch v5cID = false then
    (s, Except.error (Err.invalidInput "Invalid v5cID provided"))
  else
    match getState s v5cID with
    | some _ => (s, Except.error Err.duplicateAsset)
    | none =>
      if caller_affiliation = AUTHORITY then
        let s1 := putState s v5cID (StoredVal.coilRec v)
        match decodeIndex (getState s1 "v5cIDs") with
        | none => (s1, Except.error (Err.corruptRecord "Corrupt V5C_Holder record"))
        | some ids =>
          (putState s1 "v5cIDs" (StoredVal.indexRec (ids ++ [v5cID])), Except.ok ())
      else
        (s, Except.error (Err.permissionDenied "create_coil"))

/-- authority_to_manufacturer (source lines 392 to 416). -/
def authority_to_manufacturer (s : StubState) (v : Coil)
    (caller caller_affiliation recipient_name recipient_affiliation : String) :
    StubState × Except Err Unit :=
  if v.Status = STATE_TEMPLATE ∧ v.Owner = caller ∧ caller_affiliation = AUTHORITY
      ∧ recipient_affiliation = MANUFACTURER ∧ v.Scrapped = false then
    (save_changes s { v with Owner := recipient_name, Status := STATE_MANUFACTURE },
      Except.ok ())
  else
    (s, Except.error (Err.permissionDenied "authority_to_manufacturer"))

/-- manufacturer_to_private (source lines 421 to 451): the fully
manufactured check comes first and returns its own distinct error. -/
def manufacturer_to_private (s : StubState) (v : Coil)
    (caller caller_affiliation recipient_name recipient_affiliation : String) :
    StubState × Except Err Unit :=
  if v.Prod = "UNDEFINED" ∨ v.Grade = "UNDEFINED" ∨ v.Qual = "UNDEFINED"
      ∨ v.Wgt = "UNDEFINED" ∨ v.CoilID = 0 then
    (s, Except.error Err.notFullyManufactured)
  else if v.Status = STATE_MANUFACTURE ∧ v.Owner = caller ∧ caller_affiliation = MANUFACTURER
      ∧ recipient_affiliation = PRIVATE_ENTITY ∧ v.Scrapped = false then
    (save_changes s { v with Owner := recipient_name, Status := STATE_PRIVATE_OWNERSHIP },
      Except.ok ())
  else
    (s, Except.error (Err.permissionDenied "manufacturer_to_private"))

/-- private_to_private (source lines 456 to 476). -/
def private_to_private (s : StubState) (v : Coil)
    (caller caller_affiliation recipient_name recipient_affiliation : String) :
    StubState × Except Err Unit :=
  if v.Status = STATE_PRIVATE_OWNERSHIP ∧ v.Owner = caller ∧ caller_affiliation = PRIVATE_ENTITY
      ∧ recipient_affiliation = PRIVATE_ENTITY ∧ v.Scrapped = false then
    (save_changes s { v with Owner := recipient_name }, Except.ok ())
  else
    (s, Except.error (Err.permissionDenied "private_to_private"))

/-- private_to_lease_company (source lines 481 to 501). -/
def private_to_lease_company (s : StubState) (v : Coil)
    (caller caller_affiliation recipient_name recipient_affiliation : String) :
    StubState × Except Err Unit :=
  if v.Status = STATE_PRIVATE_OWNERSHIP ∧ v.Owner = caller ∧ caller_affiliation = PRIVATE_ENTITY
      ∧ recipient_affiliation = LEASE_COMPANY ∧ v.Scrapped = false then
    (save_changes s { v with Owner := recipient_name }, Except.ok ())
  else
    (s, Except.error (Err.permissionDenied "private_to_lease_company"))

/-- lease_company_to_private (source lines 506 to 525). -/
def lease_company_to_private (s : StubState) (v : Coil)
    (caller caller_affiliation recipient_name recipient_affiliation : String) :
    StubState × Except Err Unit :=
  if v.Status = STATE_PRIVATE_OWNERSHIP ∧ v.Owner = caller ∧ caller_affiliation = LEASE_COMPANY
      ∧ recipient_affiliation = PRIVATE_ENTITY ∧ v.Scrapped = false then
    (save_changes s { v with Owner := recipient_name }, Except.ok ())
  else
    (s, Except.error (Err.permissionDenied "lease_company_to_private"))

/-- private_to_scrap_merchant (source lines 530 to 551). -/
def private_to_scrap_merchant (s : StubState) (v : Coil)
    (caller caller_affiliation recipient_name recipient_affiliation : String) :
    StubState × Except Err Unit :=
  if v.Status = STATE_PRIVATE_OWNERSHIP ∧ v.Owner = caller ∧ caller_affiliation = PRIVATE_ENTITY
      ∧ recipient_affiliation = SCRAP_MERCHANT ∧ v.Scrapped = false then
    (save_changes s { v with Owner := recipient_name, Status := STATE_BEING_SCRAPPED },
      Except.ok ())
  else
    (s, Except.error (Err.permissionDenied "private_to_scrap_merchant"))

/-- Digits of a decimal numeral, most significant first. -/
def digitsToNat (cs : List Char) : Nat :=
  cs.foldl (fun acc c => acc * 10 + (c.toNat - 48)) 0

def parseDigits (cs : List Char) : Option Nat :=
  if cs ≠ [] ∧ cs.all isDigitChar = true then some (digitsToNat cs) else none

/-- Go strconv.Atoi: an optional sign followed by at least one decimal
digit; anything else fails.  Range overflow is not modeled because every
call site limits the input to 15 characters, within the int64 range. -/
def goAtoi (numeral : String) : Option Int :=
  match numeral.data with
  | [] => none
  | c :: rest =>
    if c = '+' then (parseDigits rest).map (fun n => (n : Int))
    else if c = '-' then (parseDigits rest).map (fun n => -(n : Int))
    else (parseDigits (c :: rest)).map (fun n => (n : Int))

/-- update_vin (source lines 558 to 583): the new value must parse with
Atoi and be exactly 15 characters long, then the guard requires status
Manufacture, owner equals caller, manufacturer role, CoilID still zero
and not scrapped. -/
def update_vin (s : StubState) (v : Coil) (caller caller_affiliation new_value : String) :
    StubState × Except Err Unit :=
  if goAtoi new_value = none ∨ new_value.length ≠ 15 then
    (s, Except.error (Err.invalidInput "Invalid value passed for new CoilID"))
  else if v.Status = STATE_MANUFACTURE ∧ v.Owner = caller ∧ caller_affiliation = MANUFACTURER
      ∧ v.CoilID = 0 ∧ v.Scrapped = false then
    (save_changes s { v with CoilID := (goAtoi new_value).getD 0 }, Except.ok ())
  else
    (s, Except.error (Err.permissionDenied "update_vin"))

/-- update_qualistration (source lines 589 to 608): any role except the
scrap merchant, owner must be the caller, no status requirement. -/
def update_qualistration (s : StubState) (v : Coil)
    (caller caller_affiliation new_value : String) : StubState × Except Err Unit :=
  if v.Owner = caller ∧ caller_affiliation ≠ SCRAP_MERCHANT ∧ v.Scrapped = false then
    (save_changes s { v with Qual := new_value }, Except.ok ())
  else
    (s, Except.error (Err.permissionDenied "update_qualistration"))

/-- update_wgt (source lines 613 to 633): the guard checks owner, the
manufacturer role and the scrapped flag but, unlike update_prod and
update_grade, has no status requirement (a status clause appears only
inside a commented-out alternative guard in the source). -/
def update_wgt (s : StubState) (v : Coil)
    (caller caller_affiliation new_value : String) : StubState × Except Err Unit :=
  if v.Owner = caller ∧ caller_affiliation = MANUFACTURER ∧ v.Scrapped = false then
    (save_changes s { v with Wgt := new_value }, Except.ok ())
  else
    (s, Except.error (Err.permissionDenied "update_wgt"))

/-- update_prod (source lines 638 to 659). -/
def update_prod (s : StubState) (v : Coil)
    (caller caller_affiliation new_value : String) : StubState × Except Err Unit :=
  if v.Status = STATE_MANUFACTURE ∧ v.Owner = caller ∧ caller_affiliation = MANUFACTURER
      ∧ v.Scrapped = false then
    (save_changes s { v with Prod := new_value }, Except.ok ())
  else
    (s, Except.error (Err.permissionDenied "update_prod"))

/-- update_grade (source lines 664 to 684). -/
def update_grade (s : StubState) (v : Coil)
    (caller caller_affiliation new_value : String) : StubState × Except Err Unit :=
  if v.Status = STATE_MANUFACTURE ∧ v.Owner = caller ∧ caller_affiliation = MANUFACTURER
      ∧ v.Scrapped = false then
    (save_changes s { v with Grade := new_value }, Except.ok ())
  else
    (s, Except.error (Err.permissionDenied "update_grade"))

/-- scrap_coil (source lines 689 to 708). -/
def scrap_coil (s : StubState) (v : Coil) (caller caller_affiliation : String) :
    StubState × Except Err Unit :=
  if v.Status = STATE_BEING_SCRAPPED ∧ v.Owner = caller ∧ caller_affiliation = SCRAP_MERCHANT
      ∧ v.Scrapped = false then
    (save_changes s { v with Scrapped := true }, Except.ok ())
  else
    (s, Except.error (Err.permissionDenied "scrap_coil"))

/-- get_coil_details (source lines 715 to 729): returns the marshaled
record (modeled as the record itself) when the caller owns it or is the
authority. -/
def get_coil_details (v : Coil) (caller caller_affiliation : String) : Except Err Coil :=
  if v.Owner = caller ∨ caller_affiliation = AUTHORITY then Except.ok v
  else Except.error (Err.permissionDenied "get_coil_details")

/-- Loop body of get_coils (source lines 751 to 762): walk the index in
order, abort on a failed retrieve, include a record exactly when
get_coil_details allows it. -/
def coilsLoop (s : StubState) (caller caller_affiliation : String) :
    List String → Except Err (List Coil)
  | [] => Except.ok []
  | id :: rest =>
    match retrieve_v5c s id with
    | Except.error _ => Except.error (Err.notFound "Failed to retrieve V5C")
    | Except.ok v =>
      match coilsLoop s caller caller_affiliation rest with
      | Except.error e => Except.error e
      | Except.ok tail =>
        match get_coil_details v caller caller_affiliation with
        | Except.ok c => Except.ok (c :: tail)
        | Except.error _ => Except.ok tail

/-- get_coils (source lines 735 to 771): read the index record, then loop.
The JSON array the source builds is modeled as the list of included
records, in the same order. -/
def get_coils (s : StubState) (caller caller_affiliation : String) :
    Except Err (List Coil) :=
  match decodeIndex (getState s "v5cIDs") with
  | none => Except.error (Err.corruptRecord "Corrupt V5C_Holder")
  | some ids => coilsLoop s caller caller_affiliation ids

/-- check_unique_v5c (source lines 776 to 783): the source returns the
bytes false together with a non-nil error when the retrieve succeeds, and
the bytes true with a nil error when the retrieve fails; modeled as a
pair of the returned string and the optional error. -/
def check_unique_v5c (s : StubState) (v5c : String) : String × Option Err :=
  match retrieve_v5c s v5c with
  | Except.ok _ => ("false", some Err.duplicateAsset)
  | Except.error _ => ("true", none)

/-- Position of the asset id in the argument list of a write operation
(source lines 239 to 243): scrap_coil takes it first, all others second. -/
def targetArg (function : String) (args : List String) : String :=
  args.getD (if function = "scrap_coil" then 0 else 1) ""

/-- Dispatch of Invoke once the target coil has been retrieved (source
lines 250 to 268).  Transfer dispatch passes a hardcoded literal as the
recipient affiliation exactly as the source does. -/
def invokeLoaded (s : StubState) (v : Coil) (function caller caller_affiliation : String)
    (args : List String) : StubState × Except Err Unit :=
  if function = "authority_to_manufacturer" then
        authority_to_manufacturer s v caller caller_affiliation (args.getD 0 "") "manufacturer"
      else if function = "manufacturer_to_private" then
        manufacturer_to_private s v caller caller_affiliation (args.getD 0 "") "private"
      else if function = "private_to_private" then
        private_to_private s v caller caller_affiliation (args.getD 0 "") "private"
      else if function = "private_to_lease_company" then
        private_to_lease_company s v caller caller_affiliation (args.getD 0 "") "lease_company"
      else if function = "lease_company_to_private" then
        lease_company_to_private s v caller caller_affiliation (args.getD 0 "") "private"
      else if function = "private_to_scrap_merchant" then
        private_to_scrap_merchant s v caller caller_affiliation (args.getD 0 "") "scrap_merchant"
      else if function = "update_prod" then
        update_prod s v caller caller_affiliation (args.getD 0 "")
      else if function = "update_grade" then
        update_grade s v caller caller_affiliation (args.getD 0 "")
      else if function = "update_qual" then
        update_qualistration s v caller caller_affiliation (args.getD 0 "")
      else if function = "update_coilid" then
        update_vin s v caller caller_affiliation (args.getD 0 "")
      else if function = "update_wgt" then
        update_wgt s v caller caller_affiliation (args.getD 0 "")
      else if function = "scrap_coil" then
        scrap_coil s v caller caller_affiliation
      else (s, Except.error (Err.notFound ("Function " ++ function ++ " does not exist")))

/-- Invoke (source lines 227 to 271): the write entry point.  Missing
arguments are modeled as the empty string (the source would panic on a
short argument list). -/
def Invoke (s : StubState) (function caller caller_affiliation : String)
    (args : List String) : StubState × Except Err Unit :=
  if function = "create_coil" then
    create_coil s caller caller_affiliation (args.getD 0 "")
  else if function = "ping" then (s, Except.ok ())
  else
    match retrieve_v5c s (targetArg function args) with
    | Except.error _ => (s, Except.error (Err.notFound "INVOKE Error retrieving v5c"))
    | Except.ok v => invokeLoaded s v function caller caller_affiliation args

/-- The write operation names that act on an existing asset. -/
def mutatingOps : List String :=
  ["authority_to_manufacturer", "manufacturer_to_private", "private_to_private",
   "private_to_lease_company", "lease_company_to_private", "private_to_scrap_merchant",
   "update_prod", "update_grade", "update_qual", "update_coilid", "update_wgt", "scrap_coil"]

/-! Helper lemmas about the ledger state and the dispatcher. -/

theorem getState_putState_same (s : StubState) (k : String) (x : StoredVal) :
    getState (putState s k x) k = some x := by
  simp [getState, putState]

theorem getState_putState_ne (s : StubState) (k k2 : String) (x : StoredVal) (h : k ≠ k2) :
    getState (putState s k x) k2 = getState s k2 := by
  simp [getState, putState, h]

theorem retrieve_ok (s : StubState) (id : String) (v : Coil)
    (h : getState s id = some (StoredVal.coilRec v)) :
    retrieve_v5c s id = Except.ok v := by
  simp [retrieve_v5c, h, decodeCoil]

theorem Invoke_retrieve_error (s : StubState) (f caller aff : String) (args : List String)
    (e : Err) (hf1 : f ≠ "create_coil") (hf2 : f ≠ "ping")
    (h : retrieve_v5c s (targetArg f args) = Except.error e) :
    Invoke s f caller aff args
      = (s, Except.error (Err.notFound "INVOKE Error retrieving v5c")) := by
  unfold Invoke
  rw [if_neg hf1, if_neg hf2, h]

theorem Invoke_retrieve_ok (s : StubState) (f caller aff : String) (args : List String)
    (v : Coil) (hf1 : f ≠ "create_coil") (hf2 : f ≠ "ping")
    (h : retrieve_v5c s (targetArg f args) = Except.ok v) :
    Invoke s f caller aff args = invokeLoaded s v f caller aff args := by
  unfold Invoke
  rw [if_neg hf1, if_neg hf2, h]

theorem invokeLoaded_authority_to_manufacturer (s : StubState) (v : Coil) (caller aff : String)
    (args : List String) :
    invokeLoaded s v "authority_to_manufacturer" caller aff args
      = authority_to_manufacturer s v caller aff (args.getD 0 "") "manufacturer" := rfl

theorem invokeLoaded_manufacturer_to_private (s : StubState) (v : Coil) (caller aff : String)
    (args : List String) :
    invokeLoaded s v "manufacturer_to_private" caller aff args
      = manufacturer_to_private s v caller aff (args.getD 0 "") "private" := rfl

theorem invokeLoaded_private_to_private (s : StubState) (v : Coil) (caller aff : String)
    (args : List String) :
    invokeLoaded s v "private_to_private" caller aff args
      = private_to_private s v caller aff (args.getD 0 "") "private" := rfl

theorem invokeLoaded_private_to_lease_company (s : StubState) (v : Coil) (caller aff : String)
    (args : List String) :
    invokeLoaded s v "private_to_lease_company" caller aff args
      = private_to_lease_company s v caller aff (args.getD 0 "") "lease_company" := rfl

theorem invokeLoaded_lease_company_to_private (s : StubState) (v : Coil) (caller aff : String)
    (args : List String) :
    invokeLoaded s v "lease_company_to_private" caller aff args
      = lease_company_to_private s v caller aff (args.getD 0 "") "private" := rfl

theorem invokeLoaded_private_to_scrap_merchant (s : StubState) (v : Coil) (caller aff : String)
    (args : List String) :
    invokeLoaded s v "private_to_scrap_merchant" caller aff args
      = private_to_scrap_merchant s v caller aff (args.getD 0 "") "scrap_merchant" := rfl

theorem invokeLoaded_update_prod (s : StubState) (v : Coil) (caller aff : String)
    (args : List String) :
    invokeLoaded s v "update_prod" caller aff args
      = update_prod s v caller aff (args.getD 0 "") := rfl

theorem invokeLoaded_update_grade (s : StubState) (v : Coil) (caller aff : String)
    (args : List String) :
    invokeLoaded s v "update_grade" caller aff args
      = update_grade s v caller aff (args.getD 0 "") := rfl

theorem invokeLoaded_update_qual (s : StubState) (v : Coil) (caller aff : String)
    (args : List String) :
    invokeLoaded s v "update_qual" caller aff args
      = update_qualistration s v caller aff (args.getD 0 "") := rfl

theorem invokeLoaded_update_coilid (s : StubState) (v : Coil) (caller aff : String)
    (args : List String) :
    invokeLoaded s v "update_coilid" caller aff args
      = update_vin s v caller aff (args.getD 0 "") := rfl

theorem invokeLoaded_update_wgt (s : StubState) (v : Coil) (caller aff : String)
    (args : List String) :
    invokeLoaded s v "update_wgt" caller aff args
      = update_wgt s v caller aff (args.getD 0 "") := rfl

theorem invokeLoaded_scrap_coil (s : StubState) (v : Coil) (caller aff : String)
    (args : List String) :
    invokeLoaded s v "scrap_coil" caller aff args
      = scrap_coil s v caller aff := rfl

/-! Scrapped coils deny every mutating operation, leaving the ledger
untouched: one lemma per operation. -/

theorem authority_to_manufacturer_scrapped (s : StubState) (v : Coil) (c a r ra : String)
    (h : v.Scrapped = true) :
    (authority_to_manufacturer s v c a r ra).1 = s
      ∧ ∃ e, (authority_to_manufacturer s v c a r ra).2 = Except.error e := by
  unfold authority_to_manufacturer
  rw [if_neg (by rintro ⟨-, -, -, -, hf⟩; rw [h] at hf; cases hf)]
  exact ⟨rfl, _, rfl⟩

theorem manufacturer_to_private_scrapped (s : StubState) (v : Coil) (c a r ra : String)
    (h : v.Scrapped = true) :
    (manufacturer_to_private s v c a r ra).1 = s
      ∧ ∃ e, (manufacturer_to_private s v c a r ra).2 = Except.error e := by
  unfold manufacturer_to_private
  by_cases hfm : v.Prod = "UNDEFINED" ∨ v.Grade = "UNDEFINED" ∨ v.Qual = "UNDEFINED"
      ∨ v.Wgt = "UNDEFINED" ∨ v.CoilID = 0
  · rw [if_pos hfm]
    exact ⟨rfl, _, rfl⟩
  · rw [if_neg hfm, if_neg (by rintro ⟨-, -, -, -, hf⟩; rw [h] at hf; cases hf)]
    exact ⟨rfl, _, rfl⟩

theorem private_to_private_scrapped (s : StubState) (v : Coil) (c a r ra : String)
    (h : v.Scrapped = true) :
    (private_to_private s v c a r ra).1 = s
      ∧ ∃ e, (private_to_private s v c a r ra).2 = Except.error e := by
  unfold private_to_private
  rw [if_neg (by rintro ⟨-, -, -, -, hf⟩; rw [h] at hf; cases hf)]
  exact ⟨rfl, _, rfl⟩

theorem private_to_lease_company_scrapped (s : StubState) (v : Coil) (c a r ra : String)
    (h : v.Scrapped = true) :
    (private_to_lease_company s v c a r ra).1 = s
      ∧ ∃ e, (private_to_lease_company s v c a r ra).2 = Except.error e := by
  unfold private_to_lease_company
  rw [if_neg (by rintro ⟨-, -, -, -, hf⟩; rw [h] at hf; cases hf)]
  exact ⟨rfl, _, rfl⟩

theorem lease_company_to_private_scrapped (s : StubState) (v : Coil) (c a r ra : String)
    (h : v.Scrapped = true) :
    (lease_company_to_private s v c a r ra).1 = s
      ∧ ∃ e, (lease_company_to_private s v c a r ra).2 = Except.error e := by
  unfold lease_company_to_private
  rw [if_neg (by rintro ⟨-, -, -, -, hf⟩; rw [h] at hf; cases hf)]
  exact ⟨rfl, _, rfl⟩

theorem private_to_scrap_merchant_scrapped (s : StubState) (v : Coil) (c a r ra : String)
    (h : v.Scrapped = true) :
    (private_to_scrap_merchant s v c a r ra).1 = s
      ∧ ∃ e, (private_to_scrap_merchant s v c a r ra).2 = Except.error e := by
  unfold private_to_scrap_merchant
  rw [if_neg (by rintro ⟨-, -, -, -, hf⟩; rw [h] at hf; cases hf)]
  exact ⟨rfl, _, rfl⟩

theorem update_vin_scrapped (s : StubState) (v : Coil) (c a nv : String)
    (h : v.Scrapped = true) :
    (update_vin s v c a nv).1 = s ∧ ∃ e, (update_vin s v c a nv).2 = Except.error e := by
  unfold update_vin
  by_cases hp : goAtoi nv = none ∨ nv.length ≠ 15
  · rw [if_pos hp]
    exact ⟨rfl, _, rfl⟩
  · rw [if_neg hp, if_neg (by rintro ⟨-, -, -, -, hf⟩; rw [h] at hf; cases hf)]
    exact ⟨rfl, _, rfl⟩

theorem update_qualistration_scrapped (s : StubState) (v : Coil) (c a nv : String)
    (h : v.Scrapped = true) :
    (update_qualistration s v c a nv).1 = s
      ∧ ∃ e, (update_qualistration s v c a nv).2 = Except.error e := by
  unfold update_qualistration
  rw [if_neg (by rintro ⟨-, -, hf⟩; rw [h] at hf; cases hf)]
  exact ⟨rfl, _, rfl⟩

theorem update_wgt_scrapped (s : StubState) (v : Coil) (c a nv : String)
    (h : v.Scrapped = true) :
    (update_wgt s v c a nv).1 = s ∧ ∃ e, (update_wgt s v c a nv).2 = Except.error e := by
  unfold update_wgt
  rw [if_neg (by rintro ⟨-, -, hf⟩; rw [h] at hf; cases hf)]
  exact ⟨rfl, _, rfl⟩

theorem update_prod_scrapped (s : StubState) (v : Coil) (c a nv : String)
    (h : v.Scrapped = true) :
    (update_prod s v c a nv).1 = s ∧ ∃ e, (update_prod s v c a nv).2 = Except.error e := by
  unfold update_prod
  rw [if_neg (by rintro ⟨-, -, -, hf⟩; rw [h] at hf; cases hf)]
  exact ⟨rfl, _, rfl⟩

theorem update_grade_scrapped (s : StubState) (v : Coil) (c a nv : String)
    (h : v.Scrapped = true) :
    (update_grade s v c a nv).1 = s ∧ ∃ e, (update_grade s v c a nv).2 = Except.error e := by
  unfold update_grade
  rw [if_neg (by rintro ⟨-, -, -, hf⟩; rw [h] at hf; cases hf)]
  exact ⟨rfl, _, rfl⟩

theorem scrap_coil_scrapped (s : StubState) (v : Coil) (c a : String)
    (h : v.Scrapped = true) :
    (scrap_coil s v c a).1 = s ∧ ∃ e, (scrap_coil s v c a).2 = Except.error e := by
  unfold scrap_coil
  rw [if_neg (by rintro ⟨-, -, -, hf⟩; rw [h] at hf; cases hf)]
  exact ⟨rfl, _, rfl⟩

/-- Claim C5: once a coil is scrapped, every transfer, update and scrap
invocation on it through the write entry point fails with an error and
leaves the ledger state, hence every field of the stored record, exactly
as it was: the scrapped flag is absorbing. -/
theorem scrapped_coil_frozen (f : String) (hf : f ∈ mutatingOps)
    (s : StubState) (id : String) (v : Coil) (caller aff : String) (args : List String)
    (hv : getState s id = some (StoredVal.coilRec v))
    (hscr : v.Scrapped = true)
    (hargs : targetArg f args = id) :
    (Invoke s f caller aff args).1 = s
      ∧ ∃ e, (Invoke s f caller aff args).2 = Except.error e := by
  have hok : retrieve_v5c s (targetArg f args) = Except.ok v := by
    rw [hargs]
    exact retrieve_ok s id v hv
  simp only [mutatingOps, List.mem_cons, List.not_mem_nil, or_false] at hf
  rcases hf with rfl | rfl | rfl | rfl | rfl | rfl | rfl | rfl | rfl | rfl | rfl | rfl
  · rw [Invoke_retrieve_ok s _ caller aff args v (by decide) (by decide) hok,
      invokeLoaded_authority_to_manufacturer]
    exact authority_to_manufacturer_scrapped s v caller aff _ _ hscr
  · rw [Invoke_retrieve_ok s _ caller aff args v (by decide) (by decide) hok,
      invokeLoaded_manufacturer_to_private]
    exact manufacturer_to_private_scrapped s v caller aff _ _ hscr
  · rw [Invoke_retrieve_ok s _ caller aff args v (by decide) (by decide) hok,
      invokeLoaded_private_to_private]
    exact private_to_private_scrapped s v caller aff _ _ hscr
  · rw [Invoke_retrieve_ok s _ caller aff args v (by decide) (by decide) hok,
      invokeLoaded_private_to_lease_company]
    exact private_to_lease_company_scrapped s v caller aff _ _ hscr
  · rw [Invoke_retrieve_ok s _ caller aff args v (by decide) (by decide) hok,
      invokeLoaded_lease_company_to_private]
    exact lease_company_to_private_scrapped s v caller aff _ _ hscr
  · rw [Invoke_retrieve_ok s _ caller aff args v (by decide) (by decide) hok,
      invokeLoaded_private_to_scrap_merchant]
    exact private_to_scrap_merchant_scrapped s v caller aff _ _ hscr
  · rw [Invoke_retrieve_ok s _ caller aff args v (by decide) (by decide) hok,
      invokeLoaded_update_prod]
    exact update_prod_scrapped s v caller aff _ hscr
  · rw [Invoke_retrieve_ok s _ caller aff args v (by decide) (by decide) hok,
      invokeLoaded_update_grade]
    exact update_grade_scrapped s v caller aff _ hscr
  · rw [Invoke_retrieve_ok s _ caller aff args v (by decide) (by decide) hok,
      invokeLoaded_update_qual]
    exact update_qualistration_scrapped s v caller aff _ hscr
  · rw [Invoke_retrieve_ok s _ caller aff args v (by decide) (by decide) hok,
      invokeLoaded_update_coilid]
    exact update_vin_scrapped s v caller aff _ hscr
  · rw [Invoke_retrieve_ok s _ caller aff args v (by decide) (by decide) hok,
      invokeLoaded_update_wgt]
    exact update_wgt_scrapped s v caller aff _ hscr
  · rw [Invoke_retrieve_ok s _ caller aff args v (by decide) (by decide) hok,
      invokeLoaded_scrap_coil]
    exact scrap_coil_scrapped s v caller aff hscr

/-- Scrapped example coil held by the scrap merchant sm1. -/
def scrCoil : Coil :=
  { newCoil "AB1234567" "sm1" with Status := STATE_BEING_SCRAPPED, Scrapped := true }

def scrSt : StubState := [("AB1234567", StoredVal.coilRec scrCoil)]

/-- Witness for claim C5 at a concrete scrapped coil: even the owning
scrap merchant cannot scrap it again, and the state is untouched. -/
theorem scrapped_coil_frozen_witness :
    (Invoke scrSt "scrap_coil" "sm1" SCRAP_MERCHANT ["AB1234567"]).1 = scrSt
      ∧ ∃ e, (Invoke scrSt "scrap_coil" "sm1" SCRAP_MERCHANT ["AB1234567"]).2
        = Except.error e :=
  scrapped_coil_frozen "scrap_coil" (by decide) scrSt "AB1234567" scrCoil "sm1"
    SCRAP_MERCHANT ["AB1234567"] rfl rfl rfl

/-- Example coil in private ownership, owned by alice. -/
def leaseCoil : Coil :=
  { newCoil "AB1234567" "alice" with Status := STATE_PRIVATE_OWNERSHIP }

def leaseSt : StubState := [("AB1234567", StoredVal.coilRec leaseCoil)]

/-- Claim C1: through the write entry point every transfer applies its
table row when status, owner, caller role, counterparty role and the
scrapped flag match, and is denied otherwise.  Refuted for
private_to_lease_company: the dispatcher passes the stale literal
lease_company as the recipient affiliation while the guard compares
against the renamed constant bank, so the transfer is denied for every
ledger state and caller, including the exact row of the table (private
ownership, owner equals caller, caller role private entity, lease
company recipient, not scrapped). -/
theorem invoke_private_to_lease_company_never_succeeds :
    (∀ (s : StubState) (caller aff : String) (args : List String),
      ∃ e, (Invoke s "private_to_lease_company" caller aff args).2 = Except.error e)
    ∧ Invoke leaseSt "private_to_lease_company" "alice" PRIVATE_ENTITY ["bank1", "AB1234567"]
        = (leaseSt, Except.error (Err.permissionDenied "private_to_lease_company")) := by
  constructor
  · intro s caller aff args
    cases hr : retrieve_v5c s (targetArg "private_to_lease_company" args) with
    | error e =>
      rw [Invoke_retrieve_error s _ caller aff args e (by decide) (by decide) hr]
      exact ⟨_, rfl⟩
    | ok v =>
      rw [Invoke_retrieve_ok s _ caller aff args v (by decide) (by decide) hr,
        invokeLoaded_private_to_lease_company]
      unfold private_to_lease_company
      rw [if_neg (by rintro ⟨-, -, -, hra, -⟩; exact absurd hra (by decide))]
      exact ⟨_, rfl⟩
  · rfl

/-- Claim C8: the creation format check is claimed to accept exactly two
letters followed by seven digits.  The source regular expression also
accepts the six ASCII punctuation characters between Z and a in the first
two positions and ignores trailing characters, so the id of two
underscores and seven digits passes the check and the create succeeds;
the digits-first id of the spec example is still rejected. -/
theorem format_check_accepts_nonletter_id :
    v5cFormatMatch "__1234567" = true
    ∧ (create_coil [("v5cIDs", StoredVal.indexRec [])] "auth1" AUTHORITY "__1234567").2
        = Except.ok ()
    ∧ v5cFormatMatch "AB1234567x" = true
    ∧ v5cFormatMatch "1234567AB" = false := by
  exact ⟨by decide, rfl, by decide, by decide⟩

/-- Example coil in the manufacture stage, owned by the manufacturer m1,
its manufacturing attributes still at their creation defaults. -/
def mfgCoil : Coil := { newCoil "AB1234567" "m1" with Status := STATE_MANUFACTURE }

/-- Claim C6: whenever any of producer, grade, quality or weight is still
UNDEFINED or the serial number is zero, manufacturer_to_private fails
with the distinct not-fully-manufactured error, before any of the
status, owner or role checks, and the ledger state is unchanged. -/
theorem manufacturer_to_private_not_fully_manufactured (s : StubState) (v : Coil)
    (caller aff recipient raff : String)
    (h : v.Prod = "UNDEFINED" ∨ v.Grade = "UNDEFINED" ∨ v.Qual = "UNDEFINED"
      ∨ v.Wgt = "UNDEFINED" ∨ v.CoilID = 0) :
    manufacturer_to_private s v caller aff recipient raff
      = (s, Except.error Err.notFullyManufactured) := by
  unfold manufacturer_to_private
  rw [if_pos h]

/-- Witness for claim C6: a coil in manufacture with correct owner, caller
role and recipient role is still rejected with the distinct error because
its producer is UNDEFINED. -/
theorem manufacturer_to_private_not_fully_manufactured_witness :
    manufacturer_to_private [] mfgCoil "m1" MANUFACTURER "bob" PRIVATE_ENTITY
      = ([], Except.error Err.notFullyManufactured) :=
  manufacturer_to_private_not_fully_manufactured [] mfgCoil "m1" MANUFACTURER "bob"
    PRIVATE_ENTITY (Or.inl rfl)

/-- Counterexample to claim C3: the weight update has no status guard in
the source, so a manufacturer who owns a coil still in the Template
status updates its weight successfully, where the claim requires a
permission denial for any status other than Manufacture. -/
theorem update_wgt_succeeds_outside_manufacture :
    (newCoil "AB1234567" "m1").Status ≠ STATE_MANUFACTURE
    ∧ (update_wgt [] (newCoil "AB1234567" "m1") "m1" MANUFACTURER "900kg").2 = Except.ok ()
    ∧ decodeCoil (getState
        (update_wgt [] (newCoil "AB1234567" "m1") "m1" MANUFACTURER "900kg").1 "AB1234567")
      = some { newCoil "AB1234567" "m1" with Wgt := "900kg" } := by
  exact ⟨by decide, rfl, rfl⟩

/-- Claim C3 amended: producer and grade updates succeed exactly when the
status is Manufacture, the caller owns the coil with the manufacturer
role and the coil is not scrapped, setting only the named field; the
weight update succeeds exactly when the caller owns the coil with the
manufacturer role and the coil is not scrapped, with no status
requirement; every other combination is denied with the record
unchanged. -/
theorem update_fields_policy (s : StubState) (v : Coil) (caller aff nv : String) :
    ((v.Status = STATE_MANUFACTURE ∧ v.Owner = caller ∧ aff = MANUFACTURER
        ∧ v.Scrapped = false) →
      update_prod s v caller aff nv = (save_changes s { v with Prod := nv }, Except.ok ()))
    ∧ (¬(v.Status = STATE_MANUFACTURE ∧ v.Owner = caller ∧ aff = MANUFACTURER
        ∧ v.Scrapped = false) →
      update_prod s v caller aff nv = (s, Except.error (Err.permissionDenied "update_prod")))
    ∧ ((v.Status = STATE_MANUFACTURE ∧ v.Owner = caller ∧ aff = MANUFACTURER
        ∧ v.Scrapped = false) →
      update_grade s v caller aff nv = (save_changes s { v with Grade := nv }, Except.ok ()))
    ∧ (¬(v.Status = STATE_MANUFACTURE ∧ v.Owner = caller ∧ aff = MANUFACTURER
        ∧ v.Scrapped = false) →
      update_grade s v caller aff nv = (s, Except.error (Err.permissionDenied "update_grade")))
    ∧ ((v.Owner = caller ∧ aff = MANUFACTURER ∧ v.Scrapped = false) →
      update_wgt s v caller aff nv = (save_changes s { v with Wgt := nv }, Except.ok ()))
    ∧ (¬(v.Owner = caller ∧ aff = MANUFACTURER ∧ v.Scrapped = false) →
      update_wgt s v caller aff nv = (s, Except.error (Err.permissionDenied "update_wgt"))) := by
  refine ⟨fun h => ?_, fun h => ?_, fun h => ?_, fun h => ?_, fun h => ?_, fun h => ?_⟩
  · unfold update_prod
    rw [if_pos h]
  · unfold update_prod
    rw [if_neg h]
  · unfold update_grade
    rw [if_pos h]
  · unfold update_grade
    rw [if_neg h]
  · unfold update_wgt
    rw [if_pos h]
  · unfold update_wgt
    rw [if_neg h]

/-- Witness for claim C3 amended: a producer update by the owning
manufacturer in the manufacture stage succeeds, and a weight update by a
manufacturer who is not the owner is denied. -/
theorem update_fields_policy_witness :
    update_prod [] mfgCoil "m1" MANUFACTURER "tata"
      = (save_changes [] { mfgCoil with Prod := "tata" }, Except.ok ())
    ∧ update_wgt [] mfgCoil "eve" MANUFACTURER "900"
      = ([], Except.error (Err.permissionDenied "update_wgt")) :=
  ⟨(update_fields_policy [] mfgCoil "m1" MANUFACTURER "tata").1 ⟨rfl, rfl, rfl, rfl⟩,
   (update_fields_policy [] mfgCoil "eve" MANUFACTURER "900").2.2.2.2.2
     (by rintro ⟨h, -⟩; exact absurd h (by decide))⟩

/-- Ledger holding one parseable coil record, used as the existing-record
case for the uniqueness check. -/
def existSt : StubState := [("AB1234567", StoredVal.coilRec (newCoil "AB1234567" "auth1"))]

/-- Counterexample to claim C4: when a record exists at the id, the
uniqueness check does not complete without error; the source returns the
bytes false together with a non-nil error. -/
theorem check_unique_errors_on_existing_record :
    check_unique_v5c existSt "AB1234567" = ("false", some Err.duplicateAsset)
    ∧ (check_unique_v5c existSt "AB1234567").2 ≠ none := by
  exact ⟨rfl, by decide⟩

/-- Claim C4 amended: when no parseable record exists at the id the check
returns true with no error (absence is the success path), and when a
parseable record exists it returns the value false accompanied by an
error. -/
theorem check_unique_behavior (s : StubState) (id : String) :
    (decodeCoil (getState s id) = none → check_unique_v5c s id = ("true", none))
    ∧ (∀ c, decodeCoil (getState s id) = some c →
        check_unique_v5c s id = ("false", some Err.duplicateAsset)) := by
  constructor
  · intro h
    unfold check_unique_v5c retrieve_v5c
    rw [h]
  · intro c h
    unfold check_unique_v5c retrieve_v5c
    rw [h]

/-- Witness for claim C4 amended, at an absent id and at a stored coil. -/
theorem check_unique_behavior_witness :
    check_unique_v5c [] "AB1234567" = ("true", none)
    ∧ check_unique_v5c existSt "AB1234567" = ("false", some Err.duplicateAsset) :=
  ⟨(check_unique_behavior [] "AB1234567").1 rfl,
   (check_unique_behavior existSt "AB1234567").2 (newCoil "AB1234567" "auth1") rfl⟩

/-- Ledger holding bytes at an id that are not a parseable coil record. -/
def corruptSt : StubState := [("AB1234567", StoredVal.rawRec "not json")]

/-- Claim C10: the uniqueness check treats every retrieval failure as
unique: stored bytes that fail to deserialize yield true with no error,
exactly as an absent record does, so a corrupt record is
indistinguishable from a nonexistent one at this interface. -/
theorem check_unique_treats_corrupt_as_unique (s : StubState) (id : String) :
    (∀ b, getState s id = some (StoredVal.rawRec b) → check_unique_v5c s id = ("true", none))
    ∧ (getState s id = none → check_unique_v5c s id = ("true", none)) := by
  constructor
  · intro b h
    unfold check_unique_v5c retrieve_v5c
    rw [h]
    rfl
  · intro h
    unfold check_unique_v5c retrieve_v5c
    rw [h]
    rfl

/-- Witness for claim C10: corrupt stored bytes and a missing record give
the same answer. -/
theorem check_unique_treats_corrupt_as_unique_witness :
    check_unique_v5c corruptSt "AB1234567" = ("true", none)
    ∧ check_unique_v5c [] "ZZ9999999" = ("true", none) :=
  ⟨(check_unique_treats_corrupt_as_unique corruptSt "AB1234567").1 "not json" rfl,
   (check_unique_treats_corrupt_as_unique [] "ZZ9999999").2 rfl⟩

/-- Counterexample to claim C2: when the stored index record does not
deserialize, create_coil first writes the asset record and only then
fails on the index, so the failed create commits the asset record while
the index is left unchanged: a committed state that is not all-or-nothing
under the get and put store interface of the spec. -/
theorem create_coil_partial_write_on_corrupt_index :
    (create_coil [("v5cIDs", StoredVal.rawRec "oops")] "auth1" AUTHORITY "AB1234567").2
      = Except.error (Err.corruptRecord "Corrupt V5C_Holder record")
    ∧ getState (create_coil [("v5cIDs", StoredVal.rawRec "oops")] "auth1" AUTHORITY
        "AB1234567").1 "AB1234567"
      = some (StoredVal.coilRec (newCoil "AB1234567" "auth1"))
    ∧ getState (create_coil [("v5cIDs", StoredVal.rawRec "oops")] "auth1" AUTHORITY
        "AB1234567").1 "v5cIDs"
      = some (StoredVal.rawRec "oops") := ⟨rfl, rfl, rfl⟩

/-- Claim C2 amended: provided the stored index record deserializes (as it
does in every state the chaincode itself produces, starting from Init),
create is all-or-nothing: every denied or failed create leaves the state
exactly as it was, and every successful create persists both the new
asset record and the index appended with the new id. -/
theorem create_coil_atomic_with_wellformed_index (s : StubState) (caller aff id : String)
    (ids : List String) (hix : decodeIndex (getState s "v5cIDs") = some ids) :
    ((create_coil s caller aff id).1 = s
        ∧ ∃ e, (create_coil s caller aff id).2 = Except.error e)
    ∨ ((create_coil s caller aff id).2 = Except.ok ()
        ∧ getState (create_coil s caller aff id).1 id
            = some (StoredVal.coilRec (newCoil id caller))
        ∧ getState (create_coil s caller aff id).1 "v5cIDs"
            = some (StoredVal.indexRec (ids ++ [id]))) := by
  simp only [create_coil]
  split
  · exact Or.inl ⟨rfl, _, rfl⟩
  case isFalse hm =>
    have hm2 : v5cFormatMatch id = true := by
      cases hb : v5cFormatMatch id
      · exact absurd hb hm
      · rfl
    have hid : id ≠ "v5cIDs" := by
      intro he
      rw [he] at hm2
      exact absurd hm2 (by decide)
    split
    · exact Or.inl ⟨rfl, _, rfl⟩
    next hg =>
      split
      case isTrue ha =>
        have hx : decodeIndex (getState (putState s id
            (StoredVal.coilRec (newCoil id caller))) "v5cIDs") = some ids := by
          rw [getState_putState_ne s id "v5cIDs" _ hid]
          exact hix
        split
        next hnone =>
          rw [hx] at hnone
          cases hnone
        next ids2 hsome =>
          rw [hx] at hsome
          injection hsome with hids
          subst hids
          refine Or.inr ⟨rfl, ?_, getState_putState_same _ _ _⟩
          rw [getState_putState_ne _ "v5cIDs" id _ (Ne.symm hid)]
          exact getState_putState_same _ _ _
      case isFalse ha => exact Or.inl ⟨rfl, _, rfl⟩

/-- Ledger state right after Init: an empty, well-formed index record. -/
def initSt : StubState := [("v5cIDs", StoredVal.indexRec [])]

/-- Witness for claim C2 amended, at the post-Init state and a fresh id. -/
theorem create_coil_atomic_with_wellformed_index_witness :
    ((create_coil initSt "auth1" AUTHORITY "AB1234567").1 = initSt
        ∧ ∃ e, (create_coil initSt "auth1" AUTHORITY "AB1234567").2 = Except.error e)
    ∨ ((create_coil initSt "auth1" AUTHORITY "AB1234567").2 = Except.ok ()
        ∧ getState (create_coil initSt "auth1" AUTHORITY "AB1234567").1 "AB1234567"
            = some (StoredVal.coilRec (newCoil "AB1234567" "auth1"))
        ∧ getState (create_coil initSt "auth1" AUTHORITY "AB1234567").1 "v5cIDs"
            = some (StoredVal.indexRec ([] ++ ["AB1234567"]))) :=
  create_coil_atomic_with_wellformed_index initSt "auth1" AUTHORITY "AB1234567" [] rfl

/-! Frame lemmas: each mutating operation other than the serial-number
update either leaves the state untouched or saves a record with the same
CoilID and the same V5cID as the loaded coil. -/

theorem authority_to_manufacturer_frame (s : StubState) (v : Coil) (c a r ra : String) :
    (authority_to_manufacturer s v c a r ra).1 = s
      ∨ ∃ w, (authority_to_manufacturer s v c a r ra).1 = save_changes s w
        ∧ w.CoilID = v.CoilID ∧ w.V5cID = v.V5cID := by
  unfold authority_to_manufacturer
  split
  · exact Or.inr ⟨_, rfl, rfl, rfl⟩
  · exact Or.inl rfl

theorem manufacturer_to_private_frame (s : StubState) (v : Coil) (c a r ra : String) :
    (manufacturer_to_private s v c a r ra).1 = s
      ∨ ∃ w, (manufacturer_to_private s v c a r ra).1 = save_changes s w
        ∧ w.CoilID = v.CoilID ∧ w.V5cID = v.V5cID := by
  unfold manufacturer_to_private
  split
  · exact Or.inl rfl
  · split
    · exact Or.inr ⟨_, rfl, rfl, rfl⟩
    · exact Or.inl rfl

theorem private_to_private_frame (s : StubState) (v : Coil) (c a r ra : String) :
    (private_to_private s v c a r ra).1 = s
      ∨ ∃ w, (private_to_private s v c a r ra).1 = save_changes s w
        ∧ w.CoilID = v.CoilID ∧ w.V5cID = v.V5cID := by
  unfold private_to_private
  split
  · exact Or.inr ⟨_, rfl, rfl, rfl⟩
  · exact Or.inl rfl

theorem private_to_lease_company_frame (s : StubState) (v : Coil) (c a r ra : String) :
    (private_to_lease_company s v c a r ra).1 = s
      ∨ ∃ w, (private_to_lease_company s v c a r ra).1 = save_changes s w
        ∧ w.CoilID = v.CoilID ∧ w.V5cID = v.V5cID := by
  unfold private_to_lease_company
  split
  · exact Or.inr ⟨_, rfl, rfl, rfl⟩
  · exact Or.inl rfl

theorem lease_company_to_private_frame (s : StubState) (v : Coil) (c a r ra : String) :
    (lease_company_to_private s v c a r ra).1 = s
      ∨ ∃ w, (lease_company_to_private s v c a r ra).1 = save_changes s w
        ∧ w.CoilID = v.CoilID ∧ w.V5cID = v.V5cID := by
  unfold lease_company_to_private
  split
  · exact Or.inr ⟨_, rfl, rfl, rfl⟩
  · exact Or.inl rfl

theorem private_to_scrap_merchant_frame (s : StubState) (v : Coil) (c a r ra : String) :
    (private_to_scrap_merchant s v c a r ra).1 = s
      ∨ ∃ w, (private_to_scrap_merchant s v c a r ra).1 = save_changes s w
        ∧ w.CoilID = v.CoilID ∧ w.V5cID = v.V5cID := by
  unfold private_to_scrap_merchant
  split
  · exact Or.inr ⟨_, rfl, rfl, rfl⟩
  · exact Or.inl rfl

theorem update_qualistration_frame (s : StubState) (v : Coil) (c a nv : String) :
    (update_qualistration s v c a nv).1 = s
      ∨ ∃ w, (update_qualistration s v c a nv).1 = save_changes s w
        ∧ w.CoilID = v.CoilID ∧ w.V5cID = v.V5cID := by
  unfold update_qualistration
  split
  · exact Or.inr ⟨_, rfl, rfl, rfl⟩
  · exact Or.inl rfl

theorem update_wgt_frame (s : StubState) (v : Coil) (c a nv : String) :
    (update_wgt s v c a nv).1 = s
      ∨ ∃ w, (update_wgt s v c a nv).1 = save_changes s w
        ∧ w.CoilID = v.CoilID ∧ w.V5cID = v.V5cID := by
  unfold update_wgt
  split
  · exact Or.inr ⟨_, rfl, rfl, rfl⟩
  · exact Or.inl rfl

theorem update_prod_frame (s : StubState) (v : Coil) (c a nv : String) :
    (update_prod s v c a nv).1 = s
      ∨ ∃ w, (update_prod s v c a nv).1 = save_changes s w
        ∧ w.CoilID = v.CoilID ∧ w.V5cID = v.V5cID := by
  unfold update_prod
  split
  · exact Or.inr ⟨_, rfl, rfl, rfl⟩
  · exact Or.inl rfl

theorem update_grade_frame (s : StubState) (v : Coil) (c a nv : String) :
    (update_grade s v c a nv).1 = s
      ∨ ∃ w, (update_grade s v c a nv).1 = save_changes s w
        ∧ w.CoilID = v.CoilID ∧ w.V5cID = v.V5cID := by
  unfold update_grade
  split
  · exact Or.inr ⟨_, rfl, rfl, rfl⟩
  · exact Or.inl rfl

theorem scrap_coil_frame (s : StubState) (v : Coil) (c a : String) :
    (scrap_coil s v c a).1 = s
      ∨ ∃ w, (scrap_coil s v c a).1 = save_changes s w
        ∧ w.CoilID = v.CoilID ∧ w.V5cID = v.V5cID := by
  unfold scrap_coil
  split
  · exact Or.inr ⟨_, rfl, rfl, rfl⟩
  · exact Or.inl rfl

/-- From a frame disjunction, any coil record found afterwards at the
asset key keeps the CoilID of the loaded coil. -/
theorem frame_step (s : StubState) (id : String) (v w : Coil) (res : StubState)
    (hv : getState s id = some (StoredVal.coilRec v)) (hvid : v.V5cID = id)
    (hres : res = s
      ∨ ∃ w2, res = save_changes s w2 ∧ w2.CoilID = v.CoilID ∧ w2.V5cID = v.V5cID)
    (hw : getState res id = some (StoredVal.coilRec w)) :
    w.CoilID = v.CoilID := by
  rcases hres with rfl | ⟨w2, rfl, hcid, hvid2⟩
  · rw [hv] at hw
    injection hw with h1
    injection h1 with h2
    rw [← h2]
  · simp only [save_changes] at hw
    rw [hvid2, hvid, getState_putState_same] at hw
    injection hw with h1
    injection h1 with h2
    rw [← h2]
    exact hcid

/-- Claim C7: a serial-number update whose new value does not parse as an
integer or is not exactly 15 characters long fails as invalid input with
nothing written; otherwise it succeeds exactly when the status is
Manufacture, the serial number is still zero, the caller owns the coil
with the manufacturer role and the coil is not scrapped, storing the
parsed value; and no other mutating operation ever changes the stored
CoilID, so the serial number moves away from zero at most once and only
while the status is Manufacture. -/
theorem update_vin_spec :
    (∀ (s : StubState) (v : Coil) (caller aff nv : String),
      (goAtoi nv = none ∨ nv.length ≠ 15) →
      update_vin s v caller aff nv
        = (s, Except.error (Err.invalidInput "Invalid value passed for new CoilID")))
    ∧ (∀ (s : StubState) (v : Coil) (caller aff nv : String) (n : Int),
      goAtoi nv = some n → nv.length = 15 →
      ((v.Status = STATE_MANUFACTURE ∧ v.Owner = caller ∧ aff = MANUFACTURER
          ∧ v.CoilID = 0 ∧ v.Scrapped = false) →
        update_vin s v caller aff nv = (save_changes s { v with CoilID := n }, Except.ok ()))
      ∧ (¬(v.Status = STATE_MANUFACTURE ∧ v.Owner = caller ∧ aff = MANUFACTURER
          ∧ v.CoilID = 0 ∧ v.Scrapped = false) →
        update_vin s v caller aff nv
          = (s, Except.error (Err.permissionDenied "update_vin"))))
    ∧ (∀ f, f ∈ mutatingOps → f ≠ "update_coilid" →
        ∀ (s : StubState) (id : String) (v : Coil) (caller aff : String) (args : List String),
        getState s id = some (StoredVal.coilRec v) → v.V5cID = id → targetArg f args = id →
        ∀ w, getState (Invoke s f caller aff args).1 id = some (StoredVal.coilRec w) →
          w.CoilID = v.CoilID) := by
  refine ⟨?_, ?_, ?_⟩
  · intro s v caller aff nv h
    unfold update_vin
    rw [if_pos h]
  · intro s v caller aff nv n hp hl
    have hvalid : ¬(goAtoi nv = none ∨ nv.length ≠ 15) := by
      rintro (h1 | h2)
      · rw [hp] at h1
        exact Option.noConfusion h1
      · exact h2 hl
    constructor
    · intro hg
      unfold update_vin
      rw [if_neg hvalid, if_pos hg, hp]
      rfl
    · intro hg
      unfold update_vin
      rw [if_neg hvalid, if_neg hg]
  · intro f hf hne s id v caller aff args hv hvid hargs w hw
    have hok : retrieve_v5c s (targetArg f args) = Except.ok v := by
      rw [hargs]
      exact retrieve_ok s id v hv
    simp only [mutatingOps, List.mem_cons, List.not_mem_nil, or_false] at hf
    rcases hf with rfl | rfl | rfl | rfl | rfl | rfl | rfl | rfl | rfl | rfl | rfl | rfl
    · rw [Invoke_retrieve_ok s _ caller aff args v (by decide) (by decide) hok,
        invokeLoaded_authority_to_manufacturer] at hw
      exact frame_step s id v w _ hv hvid
        (authority_to_manufacturer_frame s v caller aff _ _) hw
    · rw [Invoke_retrieve_ok s _ caller aff args v (by decide) (by decide) hok,
        invokeLoaded_manufacturer_to_private] at hw
      exact frame_step s id v w _ hv hvid
        (manufacturer_to_private_frame s v caller aff _ _) hw
    · rw [Invoke_retrieve_ok s _ caller aff args v (by decide) (by decide) hok,
        invokeLoaded_private_to_private] at hw
      exact frame_step s id v w _ hv hvid
        (private_to_private_frame s v caller aff _ _) hw
    · rw [Invoke_retrieve_ok s _ caller aff args v (by decide) (by decide) hok,
        invokeLoaded_private_to_lease_company] at hw
      exact frame_step s id v w _ hv hvid
        (private_to_lease_company_frame s v caller aff _ _) hw
    · rw [Invoke_retrieve_ok s _ caller aff args v (by decide) (by decide) hok,
        invokeLoaded_lease_company_to_private] at hw
      exact frame_step s id v w _ hv hvid
        (lease_company_to_private_frame s v caller aff _ _) hw
    · rw [Invoke_retrieve_ok s _ caller aff args v (by decide) (by decide) hok,
        invokeLoaded_private_to_scrap_merchant] at hw
      exact frame_step s id v w _ hv hvid
        (private_to_scrap_merchant_frame s v caller aff _ _) hw
    · rw [Invoke_retrieve_ok s _ caller aff args v (by decide) (by decide) hok,
        invokeLoaded_update_prod] at hw
      exact frame_step s id v w _ hv hvid (update_prod_frame s v caller aff _) hw
    · rw [Invoke_retrieve_ok s _ caller aff args v (by decide) (by decide) hok,
        invokeLoaded_update_grade] at hw
      exact frame_step s id v w _ hv hvid (update_grade_frame s v caller aff _) hw
    · rw [Invoke_retrieve_ok s _ caller aff args v (by decide) (by decide) hok,
        invokeLoaded_update_qual] at hw
      exact frame_step s id v w _ hv hvid (update_qualistration_frame s v caller aff _) hw
    · exact absurd rfl hne
    · rw [Invoke_retrieve_ok s _ caller aff args v (by decide) (by decide) hok,
        invokeLoaded_update_wgt] at hw
      exact frame_step s id v w _ hv hvid (update_wgt_frame s v caller aff _) hw
    · rw [Invoke_retrieve_ok s _ caller aff args v (by decide) (by decide) hok,
        invokeLoaded_scrap_coil] at hw
      exact frame_step s id v w _ hv hvid (scrap_coil_frame s v caller aff) hw

/-- Ledger holding the manufacture-stage example coil. -/
def mfgSt : StubState := [("AB1234567", StoredVal.coilRec mfgCoil)]

/-- Witness for claim C7: a two-character value is rejected as invalid
input, a 15-character numeral is stored by the owning manufacturer, and
a quality update through the entry point leaves the CoilID unchanged. -/
theorem update_vin_spec_witness :
    update_vin [] mfgCoil "m1" MANUFACTURER "12"
      = ([], Except.error (Err.invalidInput "Invalid value passed for new CoilID"))
    ∧ update_vin [] mfgCoil "m1" MANUFACTURER "000000000000001"
      = (save_changes [] { mfgCoil with CoilID := 1 }, Except.ok ())
    ∧ ({ mfgCoil with Qual := "prime" } : Coil).CoilID = mfgCoil.CoilID :=
  ⟨update_vin_spec.1 [] mfgCoil "m1" MANUFACTURER "12" (Or.inr (by decide)),
   (update_vin_spec.2.1 [] mfgCoil "m1" MANUFACTURER "000000000000001" 1 (by decide)
     (by decide)).1 ⟨rfl, rfl, rfl, rfl, rfl⟩,
   update_vin_spec.2.2 "update_qual" (by decide) (by decide) mfgSt "AB1234567" mfgCoil "m1"
     MANUFACTURER ["prime", "AB1234567"] rfl rfl rfl { mfgCoil with Qual := "prime" } rfl⟩

/-- The loop of get_coils returns exactly the retrievable coils that pass
the visibility rule, in index order, when every indexed id retrieves. -/
theorem coilsLoop_filter (s : StubState) (caller aff : String) (ids : List String)
    (hall : ∀ id ∈ ids, (decodeCoil (getState s id)).isSome = true) :
    coilsLoop s caller aff ids
      = Except.ok ((ids.filterMap (fun id => decodeCoil (getState s id))).filter
          (fun c => decide (c.Owner = caller ∨ aff = AUTHORITY))) := by
  induction ids with
  | nil => rfl
  | cons id rest ih =>
    have h1 : (decodeCoil (getState s id)).isSome = true :=
      hall id (List.mem_cons_self id rest)
    obtain ⟨c, hc⟩ := Option.isSome_iff_exists.mp h1
    have hrc : retrieve_v5c s id = Except.ok c := by
      unfold retrieve_v5c
      rw [hc]
    have h2 := ih fun x hx => hall x (List.mem_cons_of_mem id hx)
    by_cases hvis : c.Owner = caller ∨ aff = AUTHORITY
    · simp only [coilsLoop, hrc, h2, List.filterMap_cons, hc, get_coil_details, if_pos hvis,
        List.filter_cons, decide_eq_true_eq, hvis, if_true, if_pos trivial]
    · simp only [coilsLoop, hrc, h2, List.filterMap_cons, hc, get_coil_details, if_neg hvis,
        List.filter_cons, decide_eq_true_eq, hvis, if_false]

/-- Claim C9: when the stored index record deserializes and every indexed
id holds a parseable record, get_coils succeeds for every caller and
returns exactly the indexed coils whose owner equals the caller or for
which the caller holds the authority role, in index order, silently
omitting the rest, and that visibility predicate is exactly the one
get_coil_details applies. -/
theorem get_coils_visibility (s : StubState) (caller aff : String) (ids : List String)
    (hix : decodeIndex (getState s "v5cIDs") = some ids)
    (hall : ∀ id ∈ ids, (decodeCoil (getState s id)).isSome = true) :
    get_coils s caller aff
      = Except.ok ((ids.filterMap (fun id => decodeCoil (getState s id))).filter
          (fun c => decide (c.Owner = caller ∨ aff = AUTHORITY)))
    ∧ ∀ c : Coil,
        (get_coil_details c caller aff = Except.ok c ↔ (c.Owner = caller ∨ aff = AUTHORITY)) := by
  constructor
  · unfold get_coils
    rw [hix]
    exact coilsLoop_filter s caller aff ids hall
  · intro c
    unfold get_coil_details
    constructor
    · intro h
      by_contra hvis
      rw [if_neg hvis] at h
      exact Except.noConfusion h
    · intro hvis
      rw [if_pos hvis]

/-- Two privately owned coils with distinct owners, both indexed. -/
def coilA : Coil := { newCoil "AB0000001" "alice" with Status := STATE_PRIVATE_OWNERSHIP }

def coilB : Coil := { newCoil "AB0000002" "bob" with Status := STATE_PRIVATE_OWNERSHIP }

def listSt : StubState :=
  [("v5cIDs", StoredVal.indexRec ["AB0000001", "AB0000002"]),
   ("AB0000001", StoredVal.coilRec coilA), ("AB0000002", StoredVal.coilRec coilB)]

/-- Witness for claim C9: the non-authority caller alice lists exactly her
own coil, with no error for the omitted coil of bob. -/
theorem get_coils_visibility_witness :
    get_coils listSt "alice" PRIVATE_ENTITY = Except.ok [coilA] :=
  (get_coils_visibility listSt "alice" PRIVATE_ENTITY ["AB0000001", "AB0000002"] rfl
    (by decide)).1.trans rfl

end CoilChaincode
